import Mathlib

/-!
Verification of the order-lifecycle / settlement core of the
Trading-Platform-v2 Flask application (`src/app.py`).

The stateful Python code is shallowly embedded as pure Lean functions over
rational numbers: every SQLAlchemy row that a given operation can read or
write becomes a field of an explicit state record that the operation maps
to a new state.  Python's `round(x, n)` (round-half-to-even) is modelled
exactly on `ℚ`, treating Python floats as real numbers.
-/

namespace TradingApp

/-- Python's built-in `round` to an integer: round half to even
(banker's rounding), modelled on `ℚ`. -/
def roundHalfEven (x : ℚ) : ℤ :=
  let f := ⌊x⌋
  let r := x - (f : ℚ)
  if r < 1/2 then f
  else if 1/2 < r then f + 1
  else if f % 2 = 0 then f else f + 1

/-- Python's `round(x, n)` for `n ≥ 0` digits, on `ℚ`. -/
def pyRound (x : ℚ) (n : ℕ) : ℚ :=
  (roundHalfEven (x * 10 ^ n) : ℚ) / 10 ^ n

/-- Python `round(x, 2)`: monetary rounding used throughout `app.py`. -/
def round2 (x : ℚ) : ℚ := pyRound x 2

/-- Python `round(x, 6)`: quantity rounding used throughout `app.py`. -/
def round6 (x : ℚ) : ℚ := pyRound x 6

/-! ### Data model (the SQLAlchemy models of `app.py`) -/

/-- Model of `class OrderStatus` of `app.py`. -/
inductive OrderStatus
  | PENDING
  | EXECUTED
  | CANCELED
  deriving DecidableEq

/-- Model of `class OrderSide` of `app.py`. -/
inductive OrderSide
  | BUY
  | SELL
  deriving DecidableEq

/-- Model of `class TradeOrder(db.Model)`: the columns the settlement logic reads or
writes.  Timestamps are abstract instants (`ℕ`). -/
structure TradeOrder where
  side : OrderSide
  quantity : ℚ
  price_locked : ℚ
  status : OrderStatus
  executed_at : Option ℕ
  canceled_at : Option ℕ
  deriving DecidableEq

/-- Model of `class FinancialTransaction(db.Model)` (the columns written by
`record_txn`). -/
structure FinancialTransaction where
  type : String
  amount : ℚ
  balance_after : ℚ
  note : String
  deriving DecidableEq

/-- Model of `class PaymentMethod(db.Model)`: the columns read by `deposit_funds`.
The list a user owns is already filtered to that user, so `user_id` is
implicit. -/
structure PaymentMethod where
  id : ℕ
  brand : String
  last4 : String
  is_default : Bool
  deriving DecidableEq

/-- Model of `class User(db.Model)`: the columns set at registration.
`funds = db.Column(db.Float, default=10000.0)`. -/
structure User where
  full_name : String
  name : String
  email : String
  password : String
  role : String
  funds : ℚ
  deriving DecidableEq

/-- The mutable rows an order-engine / funds-ledger operation can touch:
the acting user's `funds`, the traded stock's `volume`, `price` and
`symbol`, the `Portfolio` row for that (user, stock) pair (`none` when the
row is absent, `some q` when present with `quantity = q`), and the user's
`FinancialTransaction` rows in insertion order. -/
structure LedgerState where
  funds : ℚ
  volume : ℚ
  price : ℚ
  symbol : String
  holding : Option ℚ
  txns : List FinancialTransaction
  deriving DecidableEq

/-! ### Helpers (`record_txn`, notes) -/

/-- Helper `record_txn` of `app.py`: appends one `FinancialTransaction`, rounding
`amount` and `balance_after` to 2 decimals. -/
def record_txn (txns : List FinancialTransaction) (ty : String)
    (amount balance_after : ℚ) (note : String) : List FinancialTransaction :=
  txns ++ [⟨ty, round2 amount, round2 balance_after, note⟩]

/-- The note `f"BUY {qty} {stock.symbol} @ ${order.price_locked:.2f}"`.
Python's float formatting is rendered with `toString`; no claim inspects
this text. -/
def buy_note (qty : ℚ) (symbol : String) (price_locked : ℚ) : String :=
  "BUY " ++ toString qty ++ " " ++ symbol ++ " @ $" ++ toString price_locked

/-- The note `f"SELL {qty} {stock.symbol} @ ${order.price_locked:.2f}"`. -/
def sell_note (qty : ℚ) (symbol : String) (price_locked : ℚ) : String :=
  "SELL " ++ toString qty ++ " " ++ symbol ++ " @ $" ++ toString price_locked

/-- The note `f"Deposit via {pm.brand} ••••{pm.last4}"`. -/
def deposit_note (pm : PaymentMethod) : String :=
  "Deposit via " ++ pm.brand ++ " ••••" ++ pm.last4

/-! ### Order engine -/

/-- Function `place_order(user, stock, side, qty)` of `app.py`.  Raising
`ValueError("Quantity must be positive")` is modelled as `Except.error`;
on success the new PENDING order row is returned together with the
(untouched) rest of the state. -/
def place_order (st : LedgerState) (side : OrderSide) (qty : ℚ) :
    Except String (TradeOrder × LedgerState) :=
  if qty ≤ 0 then .error "Quantity must be positive"
  else .ok (⟨side, qty, st.price, .PENDING, none, none⟩, st)

/-- Function `_add_or_update_position(user_id, stock, qty_delta)` of `app.py`
(the Position Manager), acting on the (user, stock) `Portfolio` row. -/
def _add_or_update_position (holding : Option ℚ) (qty_delta : ℚ) : Option ℚ :=
  match holding with
  | some q =>
      let q' := round6 (q + qty_delta)
      if q' ≤ 0 then none else some q'
  | none => if 0 < qty_delta then some qty_delta else none

/-- Function `execute_order(order_id)` of `app.py` on an order that exists.
Returns the `(success, message)` pair together with the updated order row
and ledger state; `now` stands for `datetime.utcnow()`. -/
def execute_order (order : TradeOrder) (st : LedgerState) (now : ℕ) :
    (Bool × String) × TradeOrder × LedgerState :=
  if order.status ≠ OrderStatus.PENDING then
    ((false, "Order is not pending."), order, st)
  else
    let qty := order.quantity
    let total := round2 (order.price_locked * qty)
    match order.side with
    | .BUY =>
        if st.volume < qty then ((false, "Insufficient market volume."), order, st)
        else if st.funds < total then ((false, "Insufficient funds."), order, st)
        else
          let funds' := round2 (st.funds - total)
          ((true, "Order executed."),
           { order with status := .EXECUTED, executed_at := some now },
           { st with
              funds := funds'
              volume := round6 (st.volume - qty)
              holding := _add_or_update_position st.holding qty
              txns := record_txn st.txns "BUY" total funds'
                        (buy_note qty st.symbol order.price_locked) })
    | .SELL =>
        match st.holding with
        | none => ((false, "Not enough shares to sell."), order, st)
        | some h =>
            if h < qty then ((false, "Not enough shares to sell."), order, st)
            else
              let h' := round6 (h - qty)
              let funds' := round2 (st.funds + total)
              ((true, "Order executed."),
               { order with status := .EXECUTED, executed_at := some now },
               { st with
                  funds := funds'
                  volume := round6 (st.volume + qty)
                  holding := if h' ≤ 0 then none else some h'
                  txns := record_txn st.txns "SELL" total funds'
                            (sell_note qty st.symbol order.price_locked) })

/-- Function `cancel_order(order_id)` of `app.py` on an order that exists. -/
def cancel_order (order : TradeOrder) (st : LedgerState) (now : ℕ) :
    (Bool × String) × TradeOrder × LedgerState :=
  if order.status ≠ OrderStatus.PENDING then
    ((false, "Only pending orders can be canceled."), order, st)
  else
    ((true, "Order canceled."),
     { order with status := .CANCELED, canceled_at := some now }, st)

/-! ### Pricing feed -/

/-- Function `update_price(current_price, drift=0.0005)` of `app.py`; `u` is the
value drawn by `random.uniform(-0.01, 0.01)`. -/
def update_price (current_price u drift : ℚ) : ℚ :=
  let random_change := u + drift
  let new_price := current_price * (1 + random_change)
  round2 (max new_price (1/100))

/-- The default drift `0.0005` of `update_price`. -/
def defaultDrift : ℚ := 1/2000

/-- One pricing-feed tick applied to the stock of a ledger state
(`update_all_stock_prices` writes only `stock.price`). -/
def price_tick (st : LedgerState) (u : ℚ) : LedgerState :=
  { st with price := update_price st.price u defaultDrift }

/-! ### Funds ledger -/

/-- Outcome of a deposit / withdrawal request (the flash-message branches
of `deposit_funds` / `withdraw_funds`). -/
inductive FundsOutcome
  | invalidAmount
  | noPaymentMethod
  | insufficientFunds
  | ok
  deriving DecidableEq

/-- Payment-method resolution inside `deposit_funds`: an explicit id is
looked up among the user's methods, otherwise the default method is
used. -/
def resolve_payment_method (methods : List PaymentMethod) (pm_id : Option ℕ) :
    Option PaymentMethod :=
  match pm_id with
  | some i => methods.find? (fun m => m.id == i)
  | none => methods.find? (fun m => m.is_default)

/-- Function `deposit_funds` of `app.py` (the amount is already parsed): returns
the outcome together with the resulting funds and transaction list. -/
def deposit_funds (funds : ℚ) (txns : List FinancialTransaction)
    (methods : List PaymentMethod) (amount : ℚ) (pm_id : Option ℕ) :
    FundsOutcome × ℚ × List FinancialTransaction :=
  if amount ≤ 0 then (.invalidAmount, funds, txns)
  else
    match resolve_payment_method methods pm_id with
    | none => (.noPaymentMethod, funds, txns)
    | some pm =>
        let funds' := round2 (funds + amount)
        (.ok, funds', record_txn txns "DEPOSIT" amount funds' (deposit_note pm))

/-- Function `withdraw_funds` of `app.py` (the amount is already parsed). -/
def withdraw_funds (funds : ℚ) (txns : List FinancialTransaction)
    (amount : ℚ) : FundsOutcome × ℚ × List FinancialTransaction :=
  if amount ≤ 0 then (.invalidAmount, funds, txns)
  else if funds < amount then (.insufficientFunds, funds, txns)
  else
    let funds' := round2 (funds - amount)
    (.ok, funds', record_txn txns "WITHDRAW" amount funds' "User withdrawal")

/-! ### Registration -/

/-- The `register` route of `app.py`: builds a `User` with
`role="customer"`; `funds` is not passed, so the column default
`10000.0` applies. -/
def register (full_name username email hashed_password : String) : User :=
  ⟨full_name, username, email, hashed_password, "customer", 10000⟩

/-- The `admin-register` route of `app.py`: rejects a wrong admin key,
otherwise builds a `User` with `role="admin"` and the same column default
for `funds`. -/
def admin_register (admin_key full_name username email hashed_password : String) :
    Option User :=
  if admin_key ≠ "MY_SECRET_ADMIN_KEY" then none
  else some ⟨full_name, username, email, hashed_password, "admin", 10000⟩

/-! ### Arithmetic facts about Python rounding -/

lemma floor_le_roundHalfEven (x : ℚ) : ⌊x⌋ ≤ roundHalfEven x := by
  unfold roundHalfEven
  dsimp only
  split_ifs <;> omega

lemma roundHalfEven_intCast (k : ℤ) : roundHalfEven (k : ℚ) = k := by
  unfold roundHalfEven
  rw [Int.floor_intCast]
  norm_num

lemma abs_roundHalfEven_sub (x : ℚ) : |(roundHalfEven x : ℚ) - x| ≤ 1/2 := by
  unfold roundHalfEven
  dsimp only
  have h0 : (⌊x⌋ : ℚ) ≤ x := Int.floor_le x
  have h1 : x < ⌊x⌋ + 1 := Int.lt_floor_add_one x
  split_ifs with hlt hgt heven
  · rw [abs_le]; constructor <;> linarith
  · push_cast; rw [abs_le]; constructor <;> linarith
  · have hr : x - (⌊x⌋ : ℚ) = 1/2 := le_antisymm (not_lt.mp hgt) (not_lt.mp hlt)
    rw [abs_le]; constructor <;> linarith
  · have hr : x - (⌊x⌋ : ℚ) = 1/2 := le_antisymm (not_lt.mp hgt) (not_lt.mp hlt)
    push_cast; rw [abs_le]; constructor <;> linarith

lemma roundHalfEven_nonneg {x : ℚ} (h : 0 ≤ x) : 0 ≤ roundHalfEven x := by
  have h0 : (0 : ℤ) ≤ ⌊x⌋ := Int.floor_nonneg.mpr h
  exact h0.trans (floor_le_roundHalfEven x)

lemma one_le_roundHalfEven {x : ℚ} (h : 1 ≤ x) : 1 ≤ roundHalfEven x := by
  have h0 : (1 : ℤ) ≤ ⌊x⌋ := by
    rw [Int.le_floor]; exact_mod_cast h
  exact h0.trans (floor_le_roundHalfEven x)

lemma round2_def (x : ℚ) : round2 x = (roundHalfEven (x * 100) : ℚ) / 100 := by
  unfold round2 pyRound
  norm_num

lemma round6_def (x : ℚ) :
    round6 x = (roundHalfEven (x * 1000000) : ℚ) / 1000000 := by
  unfold round6 pyRound
  norm_num

lemma round2_intCast_div (k : ℤ) : round2 ((k : ℚ) / 100) = (k : ℚ) / 100 := by
  rw [round2_def]
  have h : (k : ℚ) / 100 * 100 = (k : ℚ) := by field_simp
  rw [h, roundHalfEven_intCast]

lemma round2_round2 (x : ℚ) : round2 (round2 x) = round2 x := by
  rw [round2_def x, round2_intCast_div]

lemma abs_round2_sub (x : ℚ) : |round2 x - x| ≤ 1/200 := by
  rw [round2_def]
  have h := abs_roundHalfEven_sub (x * 100)
  rw [abs_le] at h ⊢
  obtain ⟨h1, h2⟩ := h
  constructor <;> linarith

lemma round2_nonneg {x : ℚ} (h : 0 ≤ x) : 0 ≤ round2 x := by
  rw [round2_def]
  have h0 : 0 ≤ roundHalfEven (x * 100) := roundHalfEven_nonneg (by linarith)
  positivity

lemma cent_le_round2 {x : ℚ} (h : 1/100 ≤ x) : 1/100 ≤ round2 x := by
  rw [round2_def]
  have h0 : 1 ≤ roundHalfEven (x * 100) := one_le_roundHalfEven (by linarith)
  have h1 : (1 : ℚ) ≤ (roundHalfEven (x * 100) : ℚ) := by exact_mod_cast h0
  linarith

lemma round6_zero : round6 0 = 0 := by
  rw [round6_def]
  norm_num
  exact_mod_cast congrArg Int.cast (roundHalfEven_intCast 0)

/-! ### Branch equations for the operations -/

lemma execute_order_not_pending {order : TradeOrder} (st : LedgerState) (now : ℕ)
    (h : order.status ≠ .PENDING) :
    execute_order order st now = ((false, "Order is not pending."), order, st) := by
  unfold execute_order
  simp [h]

lemma execute_order_buy_no_volume {order : TradeOrder} {st : LedgerState} (now : ℕ)
    (hp : order.status = .PENDING) (hs : order.side = .BUY)
    (hv : st.volume < order.quantity) :
    execute_order order st now = ((false, "Insufficient market volume."), order, st) := by
  unfold execute_order
  simp [hp, hs, hv]

lemma execute_order_buy_no_funds {order : TradeOrder} {st : LedgerState} (now : ℕ)
    (hp : order.status = .PENDING) (hs : order.side = .BUY)
    (hv : ¬ st.volume < order.quantity)
    (hf : st.funds < round2 (order.price_locked * order.quantity)) :
    execute_order order st now = ((false, "Insufficient funds."), order, st) := by
  unfold execute_order
  simp [hp, hs, hv, hf]

lemma execute_order_buy_ok {order : TradeOrder} {st : LedgerState} (now : ℕ)
    (hp : order.status = .PENDING) (hs : order.side = .BUY)
    (hv : ¬ st.volume < order.quantity)
    (hf : ¬ st.funds < round2 (order.price_locked * order.quantity)) :
    execute_order order st now =
      ((true, "Order executed."),
       { order with status := .EXECUTED, executed_at := some now },
       { st with
          funds := round2 (st.funds - round2 (order.price_locked * order.quantity))
          volume := round6 (st.volume - order.quantity)
          holding := _add_or_update_position st.holding order.quantity
          txns := record_txn st.txns "BUY"
                    (round2 (order.price_locked * order.quantity))
                    (round2 (st.funds - round2 (order.price_locked * order.quantity)))
                    (buy_note order.quantity st.symbol order.price_locked) }) := by
  unfold execute_order
  simp [hp, hs, hv, hf]

lemma execute_order_sell_no_holding {order : TradeOrder} {st : LedgerState} (now : ℕ)
    (hp : order.status = .PENDING) (hs : order.side = .SELL)
    (hh : st.holding = none) :
    execute_order order st now = ((false, "Not enough shares to sell."), order, st) := by
  unfold execute_order
  simp [hp, hs, hh]

lemma execute_order_sell_short {order : TradeOrder} {st : LedgerState} (now : ℕ)
    {h : ℚ} (hp : order.status = .PENDING) (hs : order.side = .SELL)
    (hh : st.holding = some h) (hq : h < order.quantity) :
    execute_order order st now = ((false, "Not enough shares to sell."), order, st) := by
  unfold execute_order
  simp [hp, hs, hh, hq]

lemma execute_order_sell_ok {order : TradeOrder} {st : LedgerState} (now : ℕ)
    {h : ℚ} (hp : order.status = .PENDING) (hs : order.side = .SELL)
    (hh : st.holding = some h) (hq : ¬ h < order.quantity) :
    execute_order order st now =
      ((true, "Order executed."),
       { order with status := .EXECUTED, executed_at := some now },
       { st with
          funds := round2 (st.funds + round2 (order.price_locked * order.quantity))
          volume := round6 (st.volume + order.quantity)
          holding := if round6 (h - order.quantity) ≤ 0 then none
                     else some (round6 (h - order.quantity))
          txns := record_txn st.txns "SELL"
                    (round2 (order.price_locked * order.quantity))
                    (round2 (st.funds + round2 (order.price_locked * order.quantity)))
                    (sell_note order.quantity st.symbol order.price_locked) }) := by
  unfold execute_order
  simp [hp, hs, hh, hq]

lemma price_tick_foldl_frame (us : List ℚ) (st : LedgerState) :
    (us.foldl price_tick st).funds = st.funds ∧
    (us.foldl price_tick st).volume = st.volume ∧
    (us.foldl price_tick st).holding = st.holding ∧
    (us.foldl price_tick st).txns = st.txns ∧
    (us.foldl price_tick st).symbol = st.symbol := by
  induction us generalizing st with
  | nil => exact ⟨rfl, rfl, rfl, rfl, rfl⟩
  | cons u us ih =>
      simpa [price_tick] using ih { st with price := update_price st.price u defaultDrift }

lemma cancel_order_not_pending {order : TradeOrder} (st : LedgerState) (now : ℕ)
    (h : order.status ≠ .PENDING) :
    cancel_order order st now =
      ((false, "Only pending orders can be canceled."), order, st) := by
  unfold cancel_order
  simp [h]

lemma cancel_order_pending {order : TradeOrder} (st : LedgerState) (now : ℕ)
    (h : order.status = .PENDING) :
    cancel_order order st now =
      ((true, "Order canceled."),
       { order with status := .CANCELED, canceled_at := some now }, st) := by
  unfold cancel_order
  simp [h]

lemma deposit_funds_nonpos (funds : ℚ) (txns : List FinancialTransaction)
    (methods : List PaymentMethod) {amount : ℚ} (pm_id : Option ℕ)
    (h : amount ≤ 0) :
    deposit_funds funds txns methods amount pm_id = (.invalidAmount, funds, txns) := by
  unfold deposit_funds
  simp [h]

lemma deposit_funds_no_method (funds : ℚ) (txns : List FinancialTransaction)
    {methods : List PaymentMethod} {amount : ℚ} {pm_id : Option ℕ}
    (h : ¬ amount ≤ 0) (hm : resolve_payment_method methods pm_id = none) :
    deposit_funds funds txns methods amount pm_id = (.noPaymentMethod, funds, txns) := by
  unfold deposit_funds
  simp [h, hm]

lemma deposit_funds_ok (funds : ℚ) (txns : List FinancialTransaction)
    {methods : List PaymentMethod} {amount : ℚ} {pm_id : Option ℕ}
    {pm : PaymentMethod} (h : ¬ amount ≤ 0)
    (hm : resolve_payment_method methods pm_id = some pm) :
    deposit_funds funds txns methods amount pm_id =
      (.ok, round2 (funds + amount),
       record_txn txns "DEPOSIT" amount (round2 (funds + amount)) (deposit_note pm)) := by
  unfold deposit_funds
  simp [h, hm]

lemma withdraw_funds_nonpos (funds : ℚ) (txns : List FinancialTransaction)
    {amount : ℚ} (h : amount ≤ 0) :
    withdraw_funds funds txns amount = (.invalidAmount, funds, txns) := by
  unfold withdraw_funds
  simp [h]

lemma withdraw_funds_insufficient (txns : List FinancialTransaction)
    {funds amount : ℚ} (h : ¬ amount ≤ 0) (hf : funds < amount) :
    withdraw_funds funds txns amount = (.insufficientFunds, funds, txns) := by
  unfold withdraw_funds
  simp [h, hf]

lemma withdraw_funds_ok (txns : List FinancialTransaction)
    {funds amount : ℚ} (h : ¬ amount ≤ 0) (hf : ¬ funds < amount) :
    withdraw_funds funds txns amount =
      (.ok, round2 (funds - amount),
       record_txn txns "WITHDRAW" amount (round2 (funds - amount)) "User withdrawal") := by
  unfold withdraw_funds
  simp [h, hf]

lemma round2_intCast (k : ℤ) : round2 (k : ℚ) = (k : ℚ) := by
  rw [round2_def]
  have h : (k : ℚ) * 100 = ((k * 100 : ℤ) : ℚ) := by push_cast; ring
  rw [h, roundHalfEven_intCast]
  push_cast
  field_simp

lemma round6_intCast (k : ℤ) : round6 (k : ℚ) = (k : ℚ) := by
  rw [round6_def]
  have h : (k : ℚ) * 1000000 = ((k * 1000000 : ℤ) : ℚ) := by push_cast; ring
  rw [h, roundHalfEven_intCast]
  push_cast
  field_simp

/-! ### Witness fixtures: the concrete scenario of spec §8 -/

/-- User with funds 10000.00; stock XYZ price 50.00, volume 100; no
holding, no transactions yet. -/
def stXYZ : LedgerState := ⟨10000, 100, 50, "XYZ", none, []⟩

/-- Order `placeOrder(BUY, 10)` at price 50.00, still PENDING. -/
def buy10 : TradeOrder := ⟨.BUY, 10, 50, .PENDING, none, none⟩

/-- The state after settling `buy10` from `stXYZ` (transactions elided). -/
def stXYZ2 : LedgerState := ⟨9500, 90, 50, "XYZ", some 10, []⟩

/-- Order `placeOrder(SELL, 10)` at price 50.00, still PENDING. -/
def sell10 : TradeOrder := ⟨.SELL, 10, 50, .PENDING, none, none⟩

/-! ### The claims -/

/-- C1: a PENDING BUY order settles successfully when the stock's volume
covers the quantity and the user's funds cover the settlement cost
`total = round2(price_locked * quantity)` (the spec rounds all monetary
values to 2 decimals): funds are debited by `total` (re-rounded to 2
decimals), the volume drops by the quantity (rounded to 6 decimals), the
holding is incremented via the Position Manager, exactly one BUY
transaction is appended whose `balance_after` equals the funds right
after the debit, and the order becomes EXECUTED with an execution
timestamp.  It fails with "Insufficient market volume." when
`volume < quantity`, and with "Insufficient funds." when the volume
suffices but `funds < total`; both failures leave everything unchanged. -/
theorem claim_C1 (order : TradeOrder) (st : LedgerState) (now : ℕ)
    (hp : order.status = .PENDING) (hs : order.side = .BUY) :
    (st.volume < order.quantity →
        execute_order order st now
          = ((false, "Insufficient market volume."), order, st)) ∧
    (¬ st.volume < order.quantity →
      st.funds < round2 (order.price_locked * order.quantity) →
        execute_order order st now = ((false, "Insufficient funds."), order, st)) ∧
    (¬ st.volume < order.quantity →
     ¬ st.funds < round2 (order.price_locked * order.quantity) →
        (execute_order order st now).1 = (true, "Order executed.") ∧
        (execute_order order st now).2.2.funds
          = round2 (st.funds - round2 (order.price_locked * order.quantity)) ∧
        (execute_order order st now).2.2.volume = round6 (st.volume - order.quantity) ∧
        (execute_order order st now).2.2.holding
          = _add_or_update_position st.holding order.quantity ∧
        (execute_order order st now).2.2.txns
          = st.txns ++ [⟨"BUY", round2 (order.price_locked * order.quantity),
              (execute_order order st now).2.2.funds,
              buy_note order.quantity st.symbol order.price_locked⟩] ∧
        (execute_order order st now).2.1.status = .EXECUTED ∧
        (execute_order order st now).2.1.executed_at = some now) := by
  refine ⟨fun hv => execute_order_buy_no_volume now hp hs hv,
          fun hv hf => execute_order_buy_no_funds now hp hs hv hf,
          fun hv hf => ?_⟩
  rw [execute_order_buy_ok now hp hs hv hf]
  refine ⟨rfl, rfl, rfl, rfl, ?_, rfl, rfl⟩
  simp [record_txn, round2_round2]

/-- C1 witness: the concrete scenario of spec §8 — settling a PENDING BUY
of 10 XYZ at locked price 50.00 from funds 10000, volume 100 yields funds
9500, volume 90, a holding of 10 and an EXECUTED order. -/
theorem claim_C1_witness :
    (execute_order buy10 stXYZ 5).1 = (true, "Order executed.") ∧
    (execute_order buy10 stXYZ 5).2.2.funds = 9500 ∧
    (execute_order buy10 stXYZ 5).2.2.volume = 90 ∧
    (execute_order buy10 stXYZ 5).2.2.holding = some 10 ∧
    (execute_order buy10 stXYZ 5).2.1.status = .EXECUTED := by
  have h500 : round2 ((50 : ℚ) * 10) = 500 := by
    rw [(by norm_num : ((50 : ℚ) * 10) = ((500 : ℤ) : ℚ)), round2_intCast]
    norm_num
  obtain ⟨h1, h2, h3, h4, -, h6, -⟩ :=
    (claim_C1 buy10 stXYZ 5 rfl rfl).2.2
      (by norm_num [stXYZ, buy10])
      (by rw [show buy10.price_locked = 50 from rfl, show buy10.quantity = 10 from rfl,
              h500]; norm_num [stXYZ])
  refine ⟨h1, ?_, ?_, ?_, h6⟩
  · rw [h2, show buy10.price_locked = 50 from rfl, show buy10.quantity = 10 from rfl,
        h500, show stXYZ.funds = 10000 from rfl,
        (by norm_num : (10000 : ℚ) - 500 = ((9500 : ℤ) : ℚ)), round2_intCast]
    norm_num
  · rw [h3, show buy10.quantity = 10 from rfl, show stXYZ.volume = 100 from rfl,
        (by norm_num : (100 : ℚ) - 10 = ((90 : ℤ) : ℚ)), round6_intCast]
    norm_num
  · rw [h4, show stXYZ.holding = none from rfl]
    simp [_add_or_update_position, buy10]

/-- C2: a PENDING SELL order fails with "Not enough shares to sell."
exactly when the holding row is absent or its quantity is below the order
quantity; otherwise the holding is decremented by the quantity (rounded
to 6 decimals, the row being deleted at ≤ 0), the volume grows by the
quantity, the funds are credited with `round2(price_locked * quantity)`
(monetary 2-decimal rounding per the spec), exactly one SELL transaction
is appended whose `balance_after` equals the funds after the credit, and
the order becomes EXECUTED. -/
theorem claim_C2 (order : TradeOrder) (st : LedgerState) (now : ℕ)
    (hp : order.status = .PENDING) (hs : order.side = .SELL) :
    (st.holding = none →
        execute_order order st now
          = ((false, "Not enough shares to sell."), order, st)) ∧
    (∀ h, st.holding = some h → h < order.quantity →
        execute_order order st now
          = ((false, "Not enough shares to sell."), order, st)) ∧
    (∀ h, st.holding = some h → ¬ h < order.quantity →
        (execute_order order st now).1 = (true, "Order executed.") ∧
        (execute_order order st now).2.2.holding
          = (if round6 (h - order.quantity) ≤ 0 then none
             else some (round6 (h - order.quantity))) ∧
        (execute_order order st now).2.2.volume = round6 (st.volume + order.quantity) ∧
        (execute_order order st now).2.2.funds
          = round2 (st.funds + round2 (order.price_locked * order.quantity)) ∧
        (execute_order order st now).2.2.txns
          = st.txns ++ [⟨"SELL", round2 (order.price_locked * order.quantity),
              (execute_order order st now).2.2.funds,
              sell_note order.quantity st.symbol order.price_locked⟩] ∧
        (execute_order order st now).2.1.status = .EXECUTED ∧
        (execute_order order st now).2.1.executed_at = some now) := by
  refine ⟨fun hh => execute_order_sell_no_holding now hp hs hh,
          fun h hh hq => execute_order_sell_short now hp hs hh hq,
          fun h hh hq => ?_⟩
  rw [execute_order_sell_ok now hp hs hh hq]
  refine ⟨rfl, rfl, rfl, rfl, ?_, rfl, rfl⟩
  simp [record_txn, round2_round2]

/-- C2 witness: the concrete scenario of spec §8 — settling a PENDING
SELL of 10 XYZ at locked price 50.00 from funds 9500, volume 90, holding
10 yields funds 10000, volume 100 and deletes the holding row. -/
theorem claim_C2_witness :
    (execute_order sell10 stXYZ2 6).1 = (true, "Order executed.") ∧
    (execute_order sell10 stXYZ2 6).2.2.funds = 10000 ∧
    (execute_order sell10 stXYZ2 6).2.2.volume = 100 ∧
    (execute_order sell10 stXYZ2 6).2.2.holding = none ∧
    (execute_order sell10 stXYZ2 6).2.1.status = .EXECUTED := by
  have h500 : round2 ((50 : ℚ) * 10) = 500 := by
    rw [(by norm_num : ((50 : ℚ) * 10) = ((500 : ℤ) : ℚ)), round2_intCast]
    norm_num
  obtain ⟨h1, h2, h3, h4, -, h6, -⟩ :=
    ((claim_C2 sell10 stXYZ2 6 rfl rfl).2.2) 10 rfl (by norm_num [sell10])
  refine ⟨h1, ?_, ?_, ?_, h6⟩
  · rw [h4, show sell10.price_locked = 50 from rfl, show sell10.quantity = 10 from rfl,
        h500, show stXYZ2.funds = 9500 from rfl,
        (by norm_num : (9500 : ℚ) + 500 = ((10000 : ℤ) : ℚ)), round2_intCast]
    norm_num
  · rw [h3, show sell10.quantity = 10 from rfl, show stXYZ2.volume = 90 from rfl,
        (by norm_num : (90 : ℚ) + 10 = ((100 : ℤ) : ℚ)), round6_intCast]
    norm_num
  · rw [h2, show sell10.quantity = 10 from rfl]
    norm_num [round6_zero]

/-- C3: whenever settlement returns failure, the whole state — user
funds, stock volume, the holding, the order row (hence its status) and
the transaction list — is returned exactly as it was; and after a
successful settlement, settling the resulting order again, from any
state, fails with "Order is not pending." and changes nothing. -/
theorem claim_C3 (order : TradeOrder) (st : LedgerState) (now : ℕ) :
    ((execute_order order st now).1.1 = false →
        (execute_order order st now).2 = (order, st)) ∧
    ((execute_order order st now).1.1 = true →
        ∀ (st2 : LedgerState) (now2 : ℕ),
          execute_order (execute_order order st now).2.1 st2 now2
            = ((false, "Order is not pending."),
               (execute_order order st now).2.1, st2)) := by
  by_cases hp : order.status = .PENDING
  · cases hside : order.side
    · by_cases hv : st.volume < order.quantity
      · rw [execute_order_buy_no_volume now hp hside hv]
        exact ⟨fun _ => rfl, fun htrue => by simp at htrue⟩
      · by_cases hf : st.funds < round2 (order.price_locked * order.quantity)
        · rw [execute_order_buy_no_funds now hp hside hv hf]
          exact ⟨fun _ => rfl, fun htrue => by simp at htrue⟩
        · rw [execute_order_buy_ok now hp hside hv hf]
          refine ⟨fun hfalse => by simp at hfalse, fun _ st2 now2 => ?_⟩
          exact execute_order_not_pending st2 now2 (by simp)
    · cases hh : st.holding with
      | none =>
          rw [execute_order_sell_no_holding now hp hside hh]
          exact ⟨fun _ => rfl, fun htrue => by simp at htrue⟩
      | some h =>
          by_cases hq : h < order.quantity
          · rw [execute_order_sell_short now hp hside hh hq]
            exact ⟨fun _ => rfl, fun htrue => by simp at htrue⟩
          · rw [execute_order_sell_ok now hp hside hh hq]
            refine ⟨fun hfalse => by simp at hfalse, fun _ st2 now2 => ?_⟩
            exact execute_order_not_pending st2 now2 (by simp)
  · rw [execute_order_not_pending st now hp]
    exact ⟨fun _ => rfl, fun htrue => by simp at htrue⟩

/-- C3 witness: settling the executed order produced by the §8 BUY
scenario a second time fails with "Order is not pending." and returns the
second-call state untouched; and a failed settlement (insufficient funds
on a 10000-quantity BUY) returns its state untouched. -/
theorem claim_C3_witness :
    execute_order (execute_order buy10 stXYZ 5).2.1 stXYZ2 7
      = ((false, "Order is not pending."), (execute_order buy10 stXYZ 5).2.1, stXYZ2) ∧
    (execute_order ⟨.BUY, 10000, 50, .PENDING, none, none⟩ stXYZ 5).2
      = (⟨.BUY, 10000, 50, .PENDING, none, none⟩, stXYZ) := by
  constructor
  · refine (claim_C3 buy10 stXYZ 5).2 ?_ stXYZ2 7
    rw [execute_order_buy_ok 5 rfl rfl (by norm_num [stXYZ, buy10])
          (by rw [show buy10.price_locked = 50 from rfl,
                  show buy10.quantity = 10 from rfl,
                  (by norm_num : ((50 : ℚ) * 10) = ((500 : ℤ) : ℚ)), round2_intCast]
              norm_num [stXYZ])]
  · refine (claim_C3 ⟨.BUY, 10000, 50, .PENDING, none, none⟩ stXYZ 5).1 ?_
    rw [execute_order_buy_no_volume 5 rfl rfl (by norm_num [stXYZ])]

/-- C4: settlement and withdrawal preserve non-negativity of the user's
funds (settlement under the placement guarantees that the locked price
and the quantity are non-negative), and withdrawing strictly more than
the current funds fails with the insufficient-funds outcome, leaving
funds and the transaction list unchanged. -/
theorem claim_C4 :
    (∀ (order : TradeOrder) (st : LedgerState) (now : ℕ),
        0 ≤ order.price_locked → 0 ≤ order.quantity → 0 ≤ st.funds →
        0 ≤ (execute_order order st now).2.2.funds) ∧
    (∀ (funds : ℚ) (txns : List FinancialTransaction) (amount : ℚ),
        0 ≤ funds → 0 ≤ (withdraw_funds funds txns amount).2.1) ∧
    (∀ (funds : ℚ) (txns : List FinancialTransaction) (amount : ℚ),
        0 ≤ funds → funds < amount →
        withdraw_funds funds txns amount = (.insufficientFunds, funds, txns)) := by
  refine ⟨fun order st now hpl hq hf => ?_, fun funds txns amount hf => ?_,
          fun funds txns amount hf hlt => ?_⟩
  · by_cases hp : order.status = .PENDING
    · cases hside : order.side
      · by_cases hv : st.volume < order.quantity
        · rw [execute_order_buy_no_volume now hp hside hv]; exact hf
        · by_cases hfu : st.funds < round2 (order.price_locked * order.quantity)
          · rw [execute_order_buy_no_funds now hp hside hv hfu]; exact hf
          · rw [execute_order_buy_ok now hp hside hv hfu]
            exact round2_nonneg (by linarith [not_lt.mp hfu])
      · cases hh : st.holding with
        | none => rw [execute_order_sell_no_holding now hp hside hh]; exact hf
        | some h =>
            by_cases hlt : h < order.quantity
            · rw [execute_order_sell_short now hp hside hh hlt]; exact hf
            · rw [execute_order_sell_ok now hp hside hh hlt]
              have htot : 0 ≤ round2 (order.price_locked * order.quantity) :=
                round2_nonneg (mul_nonneg hpl hq)
              exact round2_nonneg (by linarith)
    · rw [execute_order_not_pending st now hp]; exact hf
  · by_cases h0 : amount ≤ 0
    · rw [withdraw_funds_nonpos funds txns h0]; exact hf
    · by_cases h1 : funds < amount
      · rw [withdraw_funds_insufficient txns h0 h1]; exact hf
      · rw [withdraw_funds_ok txns h0 h1]
        exact round2_nonneg (by linarith [not_lt.mp h1])
  · exact withdraw_funds_insufficient txns (by linarith) hlt

/-- C4 witness: settling the §8 BUY scenario keeps funds non-negative,
and withdrawing 200 from funds 100 fails with the insufficient-funds
outcome, changing nothing. -/
theorem claim_C4_witness :
    0 ≤ (execute_order buy10 stXYZ 5).2.2.funds ∧
    withdraw_funds 100 [] 200 = (.insufficientFunds, 100, []) := by
  refine ⟨claim_C4.1 buy10 stXYZ 5 (by norm_num [buy10]) (by norm_num [buy10])
            (by norm_num [stXYZ]), ?_⟩
  exact claim_C4.2.2 100 [] 200 (by norm_num) (by norm_num)

/-- C5: placing an order with quantity ≤ 0 raises the invalid-quantity
error and creates nothing; with a positive quantity exactly one PENDING
order is created whose `price_locked` is a snapshot of the stock's price
at call time, and no funds, holding or volume change.  Whatever order the
call returned keeps `price_locked` equal to the original price, and any
sequence of later price-feed ticks changes only the stock's price — never
the order, the funds, the holding or the volume. -/
theorem claim_C5 (st : LedgerState) (side : OrderSide) (qty : ℚ) :
    (qty ≤ 0 → place_order st side qty = .error "Quantity must be positive") ∧
    (0 < qty →
        place_order st side qty
          = .ok (⟨side, qty, st.price, .PENDING, none, none⟩, st)) ∧
    (∀ (ord : TradeOrder) (st' : LedgerState),
        place_order st side qty = .ok (ord, st') →
        ord.price_locked = st.price ∧ ord.status = .PENDING ∧ st' = st ∧
        ∀ us : List ℚ,
          (us.foldl price_tick st').funds = st.funds ∧
          (us.foldl price_tick st').volume = st.volume ∧
          (us.foldl price_tick st').holding = st.holding ∧
          ord.price_locked = st.price) := by
  refine ⟨fun h => by unfold place_order; simp [h], fun h => ?_, ?_⟩
  · unfold place_order
    simp [not_le.mpr h]
  · intro ord st' hok
    unfold place_order at hok
    split_ifs at hok with h0
    rw [Except.ok.injEq, Prod.mk.injEq] at hok
    obtain ⟨rfl, rfl⟩ := hok
    refine ⟨rfl, rfl, rfl, fun us => ?_⟩
    have hf := price_tick_foldl_frame us st
    exact ⟨hf.1, hf.2.1, hf.2.2.1, rfl⟩

/-- C5 witness: from the §8 state, placing a BUY with quantity 0 is
rejected, and placing a BUY of 10 creates the PENDING order locked at
price 50 while the state, and the funds after one price tick, are
untouched. -/
theorem claim_C5_witness :
    place_order stXYZ .BUY 0 = .error "Quantity must be positive" ∧
    place_order stXYZ .BUY 10
      = .ok (⟨.BUY, 10, stXYZ.price, .PENDING, none, none⟩, stXYZ) ∧
    ([(1 : ℚ)/200].foldl price_tick stXYZ).funds = stXYZ.funds := by
  refine ⟨(claim_C5 stXYZ .BUY 0).1 (by norm_num),
          (claim_C5 stXYZ .BUY 10).2.1 (by norm_num), ?_⟩
  have h := ((claim_C5 stXYZ .BUY 10).2.2 ⟨.BUY, 10, stXYZ.price, .PENDING, none, none⟩
      stXYZ ((claim_C5 stXYZ .BUY 10).2.1 (by norm_num))).2.2.2 [(1 : ℚ)/200]
  exact h.1

lemma pos_of_add_or_update {holding : Option ℚ} {δ q' : ℚ}
    (heq : _add_or_update_position holding δ = some q') : 0 < q' := by
  unfold _add_or_update_position at heq
  cases holding with
  | some q =>
      dsimp only at heq
      split_ifs at heq with h
      rw [Option.some.injEq] at heq
      rw [← heq]
      exact not_le.mp h
  | none =>
      split_ifs at heq with h
      rw [Option.some.injEq] at heq
      rw [← heq]
      exact h

/-- C6: any surviving holding row has strictly positive quantity — the
Position Manager and the SELL branch of settlement delete a row whose
quantity would drop to ≤ 0 instead of keeping it; and buying a quantity
from no position and then selling that full quantity removes the holding
row entirely. -/
theorem claim_C6 :
    (∀ (holding : Option ℚ) (δ q' : ℚ),
        _add_or_update_position holding δ = some q' → 0 < q') ∧
    (∀ (order : TradeOrder) (st : LedgerState) (now : ℕ) (q' : ℚ),
        (∀ h, st.holding = some h → 0 < h) →
        (execute_order order st now).2.2.holding = some q' → 0 < q') ∧
    (∀ (st : LedgerState) (qty p : ℚ) (now₁ now₂ : ℕ),
        st.holding = none → 0 < qty →
        ¬ st.volume < qty → ¬ st.funds < round2 (p * qty) →
        (execute_order ⟨.SELL, qty, p, .PENDING, none, none⟩
            (execute_order ⟨.BUY, qty, p, .PENDING, none, none⟩ st now₁).2.2
            now₂).2.2.holding = none) := by
  refine ⟨fun holding δ q' heq => pos_of_add_or_update heq,
          fun order st now q' hinv heq => ?_, fun st qty p now₁ now₂ hnone hqty hv hf => ?_⟩
  · by_cases hp : order.status = .PENDING
    · cases hside : order.side
      · by_cases hv : st.volume < order.quantity
        · rw [execute_order_buy_no_volume now hp hside hv] at heq
          exact hinv q' heq
        · by_cases hfu : st.funds < round2 (order.price_locked * order.quantity)
          · rw [execute_order_buy_no_funds now hp hside hv hfu] at heq
            exact hinv q' heq
          · rw [execute_order_buy_ok now hp hside hv hfu] at heq
            exact pos_of_add_or_update heq
      · cases hh : st.holding with
        | none =>
            rw [execute_order_sell_no_holding now hp hside hh] at heq
            exact hinv q' (hh ▸ heq)
        | some h =>
            by_cases hlt : h < order.quantity
            · rw [execute_order_sell_short now hp hside hh hlt] at heq
              exact hinv q' (hh ▸ heq)
            · rw [execute_order_sell_ok now hp hside hh hlt] at heq
              dsimp only at heq
              split_ifs at heq with hle
              rw [Option.some.injEq] at heq
              rw [← heq]
              exact not_le.mp hle
    · rw [execute_order_not_pending st now hp] at heq
      exact hinv q' heq
  · have hbuy := @execute_order_buy_ok ⟨.BUY, qty, p, .PENDING, none, none⟩ st now₁ rfl rfl hv hf
    have h1 : (execute_order ⟨.BUY, qty, p, .PENDING, none, none⟩ st now₁).2.2.holding
        = _add_or_update_position st.holding qty := congrArg (fun r => r.2.2.holding) hbuy
    rw [hnone] at h1
    simp only [_add_or_update_position, if_pos hqty] at h1
    have hsell := @execute_order_sell_ok ⟨.SELL, qty, p, .PENDING, none, none⟩
      ((execute_order ⟨.BUY, qty, p, .PENDING, none, none⟩ st now₁).2.2) now₂ qty
      rfl rfl h1 (lt_irrefl qty)
    have h2 := congrArg (fun r => r.2.2.holding) hsell
    simp only at h2
    rw [h2]
    simp [sub_self, round6_zero]

/-- C6 witness: growing a fresh position by 10 yields a strictly positive
row, and the §8 round trip — buy 10 XYZ then sell all 10 — leaves no
holding row. -/
theorem claim_C6_witness :
    ((0 : ℚ) < 10) ∧
    (execute_order ⟨.SELL, 10, 50, .PENDING, none, none⟩
        (execute_order ⟨.BUY, 10, 50, .PENDING, none, none⟩ stXYZ 1).2.2
        2).2.2.holding = none := by
  constructor
  · exact claim_C6.1 none 10 10 (by simp [_add_or_update_position])
  · refine claim_C6.2.2 stXYZ 10 50 1 2 rfl (by norm_num) (by norm_num [stXYZ]) ?_
    rw [(by norm_num : ((50 : ℚ) * 10) = ((500 : ℤ) : ℚ)), round2_intCast]
    norm_num [stXYZ]

/-- C7: canceling a non-PENDING order fails with the not-pending reason
and changes nothing at all; canceling a PENDING order only sets the
status to CANCELED and stamps `canceled_at` — every other order field and
the whole ledger state (funds, volume, holding, transactions) are
untouched. -/
theorem claim_C7 (order : TradeOrder) (st : LedgerState) (now : ℕ) :
    (order.status ≠ .PENDING →
        cancel_order order st now
          = ((false, "Only pending orders can be canceled."), order, st)) ∧
    (order.status = .PENDING →
        cancel_order order st now
          = ((true, "Order canceled."),
             { order with status := .CANCELED, canceled_at := some now }, st)) :=
  ⟨fun h => cancel_order_not_pending st now h, fun h => cancel_order_pending st now h⟩

/-- C7 witness: canceling the PENDING §8 BUY order marks it CANCELED with
a timestamp and leaves the state alone, while canceling an EXECUTED copy
fails and changes nothing. -/
theorem claim_C7_witness :
    cancel_order buy10 stXYZ 3
      = ((true, "Order canceled."),
         { buy10 with status := .CANCELED, canceled_at := some 3 }, stXYZ) ∧
    cancel_order ⟨.BUY, 10, 50, .EXECUTED, some 1, none⟩ stXYZ 3
      = ((false, "Only pending orders can be canceled."),
         ⟨.BUY, 10, 50, .EXECUTED, some 1, none⟩, stXYZ) :=
  ⟨(claim_C7 buy10 stXYZ 3).2 rfl,
   (claim_C7 ⟨.BUY, 10, 50, .EXECUTED, some 1, none⟩ stXYZ 3).1 (by simp)⟩

/-- C8: a deposit with amount ≤ 0 is rejected as an invalid amount; when
no payment method resolves (an explicit id not among the user's methods,
or no id given and no default on file) it is rejected with the
no-payment-method outcome; both rejections leave funds and transactions
unchanged.  Otherwise funds are credited with the amount (2-decimal
monetary rounding) and exactly one DEPOSIT transaction is appended whose
`balance_after` is the new balance and whose note contains the resolved
method's brand and last-4 digits. -/
theorem claim_C8 (funds : ℚ) (txns : List FinancialTransaction)
    (methods : List PaymentMethod) (amount : ℚ) (pm_id : Option ℕ) :
    (amount ≤ 0 →
        deposit_funds funds txns methods amount pm_id
          = (.invalidAmount, funds, txns)) ∧
    (0 < amount → resolve_payment_method methods pm_id = none →
        deposit_funds funds txns methods amount pm_id
          = (.noPaymentMethod, funds, txns)) ∧
    (0 < amount → ∀ pm, resolve_payment_method methods pm_id = some pm →
        deposit_funds funds txns methods amount pm_id
          = (.ok, round2 (funds + amount),
             txns ++ [⟨"DEPOSIT", round2 amount, round2 (funds + amount),
               deposit_note pm⟩]) ∧
        deposit_note pm = "Deposit via " ++ (pm.brand ++ (" ••••" ++ pm.last4)) ∧
        deposit_note pm = ("Deposit via " ++ pm.brand ++ " ••••") ++ pm.last4) := by
  refine ⟨fun h => deposit_funds_nonpos funds txns methods pm_id h,
          fun h hm => deposit_funds_no_method funds txns (not_le.mpr h) hm,
          fun h pm hm => ⟨?_, ?_, rfl⟩⟩
  · rw [deposit_funds_ok funds txns (not_le.mpr h) hm]
    simp [record_txn, round2_round2]
  · rw [deposit_note, String.append_assoc, String.append_assoc]

/-- C8 witness: with a default Visa card ending 4242 on file, depositing
100 into funds 0 succeeds, credits exactly 100, and notes the card brand
and last-4; with no methods on file the same deposit is rejected with no
transaction recorded. -/
theorem claim_C8_witness :
    (deposit_funds 0 [] [⟨1, "Visa", "4242", true⟩] 100 none).1 = .ok ∧
    (deposit_funds 0 [] [⟨1, "Visa", "4242", true⟩] 100 none).2.1 = 100 ∧
    deposit_note ⟨1, "Visa", "4242", true⟩
      = "Deposit via " ++ ("Visa" ++ (" ••••" ++ "4242")) ∧
    deposit_funds 0 [] [] 100 none = (.noPaymentMethod, 0, []) := by
  obtain ⟨h1, h2, -⟩ :=
    (claim_C8 0 [] [⟨1, "Visa", "4242", true⟩] 100 none).2.2 (by norm_num)
      ⟨1, "Visa", "4242", true⟩ rfl
  refine ⟨by rw [h1], ?_, h2, ?_⟩
  · rw [h1]
    show round2 ((0 : ℚ) + 100) = 100
    rw [(by norm_num : ((0 : ℚ) + 100) = ((100 : ℤ) : ℚ)), round2_intCast]
    norm_num
  · exact (claim_C8 0 [] [] 100 none).2.1 (by norm_num) rfl

/-- C9: a price tick computes exactly
`round(max(old_price * (1 + u + drift), 0.01), 2)` with drift `0.0005`;
every tick result is at least `0.01`; and for a price of at least one
cent (the feed's own floor) with noise `|u| ≤ 0.01`, the new price stays
within `old_price * 0.01` of `old_price * (1 + drift)` up to the
half-cent rounding tolerance `1/200` — i.e. the relative move minus the
drift is bounded by `0.01` within rounding tolerance. -/
theorem claim_C9 (p u : ℚ) :
    (update_price p u defaultDrift
        = round2 (max (p * (1 + u + defaultDrift)) (1/100)) ∧
     1/100 ≤ update_price p u defaultDrift) ∧
    (1/100 ≤ p → |u| ≤ 1/100 →
        |update_price p u defaultDrift - p * (1 + defaultDrift)|
          ≤ p * (1/100) + 1/200) := by
  have harg : p * (1 + (u + defaultDrift)) = p * (1 + u + defaultDrift) := by ring
  have hdef : update_price p u defaultDrift
      = round2 (max (p * (1 + u + defaultDrift)) (1/100)) := by
    unfold update_price
    dsimp only
    rw [harg]
  refine ⟨⟨hdef, ?_⟩, fun hp hu => ?_⟩
  · rw [hdef]
    exact cent_le_round2 (le_max_right _ _)
  · rw [hdef]
    unfold defaultDrift
    rw [abs_le] at hu
    obtain ⟨hu1, hu2⟩ := hu
    have hp0 : (0 : ℚ) ≤ p := by linarith
    have hpu1 : p * u ≤ p * (1/100) := mul_le_mul_of_nonneg_left hu2 hp0
    have hpu2 : p * (-(1/100)) ≤ p * u := mul_le_mul_of_nonneg_left hu1 hp0
    rcases le_or_lt (1/100 : ℚ) (p * (1 + u + 1/2000)) with hx | hx
    · rw [max_eq_left hx]
      have hr := abs_round2_sub (p * (1 + u + 1/2000))
      rw [abs_le] at hr ⊢
      constructor <;> nlinarith [hr.1, hr.2, hpu1, hpu2]
    · rw [max_eq_right hx.le,
          show ((1 : ℚ)/100) = ((1 : ℤ) : ℚ)/100 from by norm_num, round2_intCast_div]
      push_cast
      rw [abs_le]
      constructor <;> nlinarith [hpu1, hpu2]

/-- C9 witness: a tick from price 1.00 with zero noise stays within the
claimed band around the pure-drift price. -/
theorem claim_C9_witness :
    |update_price 1 0 defaultDrift - 1 * (1 + defaultDrift)|
      ≤ 1 * (1/100) + 1/200 :=
  (claim_C9 1 0).2 (by norm_num) (by norm_num)

/-- C10: every registration path — customer and admin alike — creates its
user with a funds balance of exactly 10000 (the column default neither
route overrides or parameterizes). -/
theorem claim_C10 :
    (∀ full_name username email pw,
        (register full_name username email pw).funds = 10000) ∧
    (∀ key full_name username email pw (u : User),
        admin_register key full_name username email pw = some u →
        u.funds = 10000) := by
  refine ⟨fun _ _ _ _ => rfl, fun key fn un em pw u h => ?_⟩
  unfold admin_register at h
  split_ifs at h with hk
  rw [Option.some.injEq] at h
  rw [← h]

/-- C10 witness: a concrete customer registration and a concrete
successful admin registration both start with funds 10000. -/
theorem claim_C10_witness :
    (register "a" "b" "c" "d").funds = 10000 ∧
    (⟨"a", "b", "c", "d", "admin", 10000⟩ : User).funds = 10000 :=
  ⟨claim_C10.1 "a" "b" "c" "d",
   claim_C10.2 "MY_SECRET_ADMIN_KEY" "a" "b" "c" "d"
     ⟨"a", "b", "c", "d", "admin", 10000⟩ (by rfl)⟩

end TradingApp
